import Mathlib

/-
Verification of the `mosaicolabs.models.query` package initializer
(`src/mosaico-sdk-py/src/mosaicolabs/models/query/__init__.py`).

The initializer is a pure re-export file: two `from .<submodule> import`
statements binding nine class names into the package namespace. We embed
the relevant fragment of Python's import semantics shallowly: a module is
a finite association list from names to objects, an object carries the
identity of the definition it denotes (origin submodule and name), and
executing the initializer threads a package namespace through the import
statements, failing with the offending name when resolution fails.
-/

namespace Mosaico

/-- A Python object as observable at this layer: the definition it denotes,
identified by the submodule that owns it and its name there. Two bindings
refer to the same object exactly when these agree. -/
structure PyObj where
  module : String
  name : String
deriving DecidableEq, Repr

/-- A binding in a package namespace: either an ordinary object or a
submodule attribute (set on the parent package by the import machinery). -/
inductive Binding where
  | obj (o : PyObj)
  | submod (name : String)
deriving DecidableEq, Repr

/-- A module namespace: names bound to objects, in definition order. -/
abbrev Module := List (String × PyObj)

/-- A package namespace: names bound to bindings, in binding order. -/
abbrev Namespace := List (String × Binding)

/-- Resolve a name in a module namespace. -/
def lookupName (m : Module) (n : String) : Option PyObj :=
  match m with
  | [] => none
  | p :: rest => if p.1 = n then some p.2 else lookupName rest n

/-- Resolve a name in a package namespace. -/
def lookupBinding (ns : Namespace) (n : String) : Option Binding :=
  match ns with
  | [] => none
  | p :: rest => if p.1 = n then some p.2 else lookupBinding rest n

/-- Bind a name in a package namespace, overwriting in place when the name
is already bound (Python dict update semantics, insertion order kept). -/
def setName (ns : Namespace) (n : String) (b : Binding) : Namespace :=
  match ns with
  | [] => [(n, b)]
  | p :: rest => if p.1 = n then (n, b) :: rest else p :: setName rest n b

/-- One item of a `from ... import (src as bound, ...)` statement. -/
structure ImportItem where
  src : String
  bound : String
deriving DecidableEq, Repr

/-- A statement of the initializer: `from .<sub> import (items)`. -/
inductive Stmt where
  | fromImport (sub : String) (items : List ImportItem)

/-- The import environment: which submodules resolve, and to what
namespace. `none` means importing that submodule fails. -/
abbrev Env := String → Option Module

/-- Execute the item list of a from-import: resolve each source name in the
submodule, in order, binding it in the package namespace; a name that does
not resolve aborts the import with that name as the error. -/
def execItems (sub : Module) (items : List ImportItem) (ns : Namespace) :
    Except String Namespace :=
  match items with
  | [] => .ok ns
  | i :: rest =>
    match lookupName sub i.src with
    | none => .error i.src
    | some v => execItems sub rest (setName ns i.bound (.obj v))

/-- Execute one statement: import the submodule (failing with its name if
it does not resolve), bind it as an attribute of the package, then bind
the imported items. -/
def execStmt (env : Env) (ns : Namespace) : Stmt → Except String Namespace
  | .fromImport sub items =>
    match env sub with
    | none => .error sub
    | some m => execItems m items (setName ns sub (.submod sub))

/-- Execute the statements of the initializer in order; the first failure
aborts the import of the package. -/
def execStmts (env : Env) (ns : Namespace) : List Stmt → Except String Namespace
  | [] => .ok ns
  | s :: rest =>
    match execStmt env ns s with
    | .error e => .error e
    | .ok ns2 => execStmts env ns2 rest

/-- The first statement of `__init__.py` (lines 1-6):
`from .builders import (QueryTopic as QueryTopic, QuerySequence as
QuerySequence, QueryOntologyCatalog as QueryOntologyCatalog, Query as
Query)`. -/
def buildersItems : List ImportItem :=
  [⟨"QueryTopic", "QueryTopic"⟩,
   ⟨"QuerySequence", "QuerySequence"⟩,
   ⟨"QueryOntologyCatalog", "QueryOntologyCatalog"⟩,
   ⟨"Query", "Query"⟩]

/-- The second statement of `__init__.py` (lines 8-14):
`from .response import (QueryResponseItemSequence as ..., QueryResponseItemTopic
as ..., TimestampRange as ..., QueryResponseItem as ..., QueryResponse as ...)`,
each name aliased to itself. -/
def responseItems : List ImportItem :=
  [⟨"QueryResponseItemSequence", "QueryResponseItemSequence"⟩,
   ⟨"QueryResponseItemTopic", "QueryResponseItemTopic"⟩,
   ⟨"TimestampRange", "TimestampRange"⟩,
   ⟨"QueryResponseItem", "QueryResponseItem"⟩,
   ⟨"QueryResponse", "QueryResponse"⟩]

/-- The body of `__init__.py`: the builders block, then the response block. -/
def queryInitStmts : List Stmt :=
  [.fromImport "builders" buildersItems,
   .fromImport "response" responseItems]

/-- `__init__.py` defines no `__all__` list. -/
def queryAllDecl : Option (List String) := none

/-- Importing the package root: run the initializer on an empty namespace. -/
def importQueryRoot (env : Env) : Except String Namespace :=
  execStmts env [] queryInitStmts

/-- Modelled from the spec: the `builders` submodule is not included under
src/ (only the initializer that imports from it is). Per the origin table of
spec section 6, it owns the definitions of QueryTopic, QuerySequence,
QueryOntologyCatalog and Query. -/
def buildersModule : Module :=
  [("QueryTopic", ⟨"builders", "QueryTopic"⟩),
   ("QuerySequence", ⟨"builders", "QuerySequence"⟩),
   ("QueryOntologyCatalog", ⟨"builders", "QueryOntologyCatalog"⟩),
   ("Query", ⟨"builders", "Query"⟩)]

/-- Modelled from the spec: the `response` submodule is not included under
src/ (only the initializer that imports from it is). Per the origin table of
spec section 6, it owns the definitions of QueryResponseItemSequence,
QueryResponseItemTopic, TimestampRange, QueryResponseItem and QueryResponse. -/
def responseModule : Module :=
  [("QueryResponseItemSequence", ⟨"response", "QueryResponseItemSequence"⟩),
   ("QueryResponseItemTopic", ⟨"response", "QueryResponseItemTopic"⟩),
   ("TimestampRange", ⟨"response", "TimestampRange"⟩),
   ("QueryResponseItem", ⟨"response", "QueryResponseItem"⟩),
   ("QueryResponse", ⟨"response", "QueryResponse"⟩)]

/-- The environment of the intact repository: both submodules resolve to
their spec-modelled namespaces. -/
def actualEnv : Env := fun s =>
  if s = "builders" then some buildersModule
  else if s = "response" then some responseModule
  else none

/-- The nine names the spec lists as the public import surface. -/
def nineNames : List String :=
  ["QueryTopic", "QuerySequence", "QueryOntologyCatalog", "Query",
   "QueryResponseItemSequence", "QueryResponseItemTopic", "TimestampRange",
   "QueryResponseItem", "QueryResponse"]

/-- The package namespace produced by importing the package root in the
intact environment. -/
def queryNamespace : Namespace :=
  (importQueryRoot actualEnv).toOption.getD []

/-- Whether a name starts with an underscore (and is therefore skipped by
a wildcard import when no `__all__` is defined). -/
def startsWithUnderscore (n : String) : Bool :=
  match n.data with
  | [] => false
  | c :: _ => c == '_'

/-- The names a wildcard import (`from mosaicolabs.models.query import *`)
exports: the `__all__` list when defined, otherwise every bound name not
starting with an underscore. -/
def starImportResult : List String :=
  match queryAllDecl with
  | some l => l
  | none =>
    (queryNamespace.map (fun p => p.1)).filter (fun n => !(startsWithUnderscore n))

/-- A builders submodule with the `Query` symbol removed: models the
spec's failure scenario of a missing or renamed symbol in an origin
submodule. -/
def faultyBuilders : Module :=
  [("QueryTopic", ⟨"builders", "QueryTopic"⟩),
   ("QuerySequence", ⟨"builders", "QuerySequence"⟩),
   ("QueryOntologyCatalog", ⟨"builders", "QueryOntologyCatalog"⟩)]

/-- An environment in which the builders submodule lacks `Query` while the
response submodule is intact. -/
def faultyEnv : Env := fun s =>
  if s = "builders" then some faultyBuilders
  else if s = "response" then some responseModule
  else none

/-- An environment in which importing the builders submodule itself fails
while the response submodule is intact. -/
def noBuildersEnv : Env := fun s =>
  if s = "response" then some responseModule else none

/-- If the item list of a from-import executes successfully, every source
name it mentions resolves in the submodule. -/
theorem execItems_ok_isSome (m : Module) :
    ∀ (items : List ImportItem) (ns ns2 : Namespace),
      execItems m items ns = Except.ok ns2 →
      ∀ i ∈ items, (lookupName m i.src).isSome := by
  intro items
  induction items with
  | nil =>
    intro ns ns2 h i hi
    simp at hi
  | cons a rest ih =>
    intro ns ns2 h i hi
    simp only [execItems] at h
    cases hla : lookupName m a.src with
    | none =>
      rw [hla] at h
      exact Except.noConfusion h
    | some v =>
      rw [hla] at h
      rcases List.mem_cons.mp hi with hi1 | hmem
      · rw [hi1, hla]
        rfl
      · exact ih _ _ h i hmem

/-- C1: importing the package root succeeds, and each of the nine listed
names (QueryTopic, QuerySequence, QueryOntologyCatalog, Query,
QueryResponseItemSequence, QueryResponseItemTopic, TimestampRange,
QueryResponseItem, QueryResponse) resolves in the resulting package
namespace to a non-null definition. -/
theorem import_resolves_all_nine :
    importQueryRoot actualEnv = Except.ok queryNamespace ∧
    (nineNames.all fun n => (lookupBinding queryNamespace n).isSome) = true := by
  exact ⟨rfl, rfl⟩

/-- C2 counterexample: the claim that no name other than the nine is
exposed at the package root fails on the intact environment: the import
succeeds, yet the name "builders" is bound in the package namespace while
not among the nine listed names. -/
theorem exposed_names_not_exactly_nine :
    importQueryRoot actualEnv = Except.ok queryNamespace ∧
    (lookupBinding queryNamespace "builders").isSome = true ∧
    nineNames.contains "builders" = false := by
  exact ⟨rfl, rfl, rfl⟩

/-- C2 amended: all nine listed names are exposed at the package root, but
the exposed set is the nine names plus the two submodule attributes
`builders` and `response`, in binding order, and nothing else. -/
theorem exposed_names_nine_plus_submodules :
    queryNamespace.map (fun p => p.1) =
      ["builders", "QueryTopic", "QuerySequence", "QueryOntologyCatalog",
       "Query", "response", "QueryResponseItemSequence",
       "QueryResponseItemTopic", "TimestampRange", "QueryResponseItem",
       "QueryResponse"] ∧
    (nineNames.all fun n => (lookupBinding queryNamespace n).isSome) = true := by
  exact ⟨rfl, rfl⟩

/-- C3: for every re-exported item, the binding reachable through the
package root is the very object obtained by resolving the same name
directly in its origin submodule: no copy, no wrapper. -/
theorem reexport_preserves_identity :
    (buildersItems.all fun i =>
      lookupBinding queryNamespace i.bound ==
        (lookupName buildersModule i.src).map Binding.obj) = true ∧
    (responseItems.all fun i =>
      lookupBinding queryNamespace i.bound ==
        (lookupName responseModule i.src).map Binding.obj) = true := by
  exact ⟨rfl, rfl⟩

/-- C4: each exposed name resolves to the definition owned by the origin
submodule of the spec's table — the four builder names to definitions
owned by `builders`, the five response names to definitions owned by
`response` — and every import item binds a name identical to its source
name (no renaming in either direction). -/
theorem origin_table_respected :
    (["QueryTopic", "QuerySequence", "QueryOntologyCatalog", "Query"].all
      fun n => lookupBinding queryNamespace n ==
        some (Binding.obj ⟨"builders", n⟩)) = true ∧
    (["QueryResponseItemSequence", "QueryResponseItemTopic", "TimestampRange",
      "QueryResponseItem", "QueryResponse"].all
      fun n => lookupBinding queryNamespace n ==
        some (Binding.obj ⟨"response", n⟩)) = true ∧
    ((buildersItems ++ responseItems).all fun i => i.src == i.bound) = true := by
  exact ⟨rfl, rfl, rfl⟩

/-- C5: in any environment in which both submodules import but some source
name of the initializer is missing from its origin submodule (removed or
renamed), importing the package root fails with a resolution error; no
substitute value is silently bound. -/
theorem missing_symbol_fails_import (env : Env) (mb mr : Module)
    (hb : env "builders" = some mb) (hr : env "response" = some mr)
    (hmiss : (∃ i ∈ buildersItems, lookupName mb i.src = none) ∨
             (∃ i ∈ responseItems, lookupName mr i.src = none)) :
    ∃ e, importQueryRoot env = Except.error e := by
  cases h1 : execItems mb buildersItems
      (setName [] "builders" (.submod "builders")) with
  | error e =>
    refine ⟨e, ?_⟩
    simp only [importQueryRoot, queryInitStmts, execStmts, execStmt, hb, h1]
  | ok ns1 =>
    cases h2 : execItems mr responseItems
        (setName ns1 "response" (.submod "response")) with
    | error e =>
      refine ⟨e, ?_⟩
      simp only [importQueryRoot, queryInitStmts, execStmts, execStmt, hb, hr,
        h1, h2]
    | ok ns2 =>
      exfalso
      rcases hmiss with ⟨i, hi, hnone⟩ | ⟨i, hi, hnone⟩
      · have hs := execItems_ok_isSome mb buildersItems _ _ h1 i hi
        rw [hnone] at hs
        exact Bool.noConfusion hs
      · have hs := execItems_ok_isSome mr responseItems _ _ h2 i hi
        rw [hnone] at hs
        exact Bool.noConfusion hs

/-- C5 witness: in the environment whose builders submodule lacks `Query`,
importing the package root fails with a resolution error. -/
theorem missing_symbol_fails_import_witness :
    ∃ e, importQueryRoot faultyEnv = Except.error e :=
  missing_symbol_fails_import faultyEnv faultyBuilders responseModule rfl rfl
    (Or.inl ⟨⟨"Query", "Query"⟩, by decide, rfl⟩)

/-- C6: the entire effect of importing the package root is the produced
list of name bindings: the two submodule attributes, and each re-exported
object taken unchanged from its origin submodule namespace — no further
state, no transformation of any object. -/
theorem import_only_binds_names :
    importQueryRoot actualEnv =
      Except.ok ((("builders", Binding.submod "builders") ::
        buildersModule.map (fun p => (p.1, Binding.obj p.2))) ++
        (("response", Binding.submod "response") ::
        responseModule.map (fun p => (p.1, Binding.obj p.2)))) := by
  exact rfl

/-- C7: after a successful import of the package root, the submodule names
`builders` and `response` are bound as attributes of the package
namespace, so the namespace holds more than the nine listed names. -/
theorem submodule_attributes_present :
    lookupBinding queryNamespace "builders" = some (.submod "builders") ∧
    lookupBinding queryNamespace "response" = some (.submod "response") ∧
    nineNames.length < queryNamespace.length := by
  exact ⟨rfl, rfl, by decide⟩

/-- C8: the builders block executes before the response block: in any
environment in which importing the builders submodule fails, the
package-root import fails with that very error before the response block
runs, so none of the nine names becomes bound. -/
theorem builders_block_first (env : Env) (hb : env "builders" = none) :
    importQueryRoot env = Except.error "builders" := by
  simp only [importQueryRoot, queryInitStmts, execStmts, execStmt, hb]

/-- C8 witness: with the builders submodule absent and the response
submodule intact, importing the package root fails with the builders
resolution error. -/
theorem builders_block_first_witness :
    importQueryRoot noBuildersEnv = Except.error "builders" :=
  builders_block_first noBuildersEnv rfl

/-- C9: the initializer defines no `__all__`, every import item binds its
source name to itself with no leading underscore, and a wildcard import of
the package root therefore exports the nine names together with the
submodule attributes `builders` and `response`. -/
theorem wildcard_exports_all_bindings :
    queryAllDecl = none ∧
    ((buildersItems ++ responseItems).all fun i =>
      i.src == i.bound && !(startsWithUnderscore i.bound)) = true ∧
    starImportResult =
      ["builders", "QueryTopic", "QuerySequence", "QueryOntologyCatalog",
       "Query", "response", "QueryResponseItemSequence",
       "QueryResponseItemTopic", "TimestampRange", "QueryResponseItem",
       "QueryResponse"] := by
  exact ⟨rfl, rfl, rfl⟩

end Mosaico
